import Mathlib

/-!
Shallow embedding of the synchronization & transformation core of
`glooko-cgm-reader.js` (class `GlookoCGMReader`), together with proofs of the
spec claims about it.

Modelling conventions:
* JS numbers are modelled as `ℚ` (exact rationals); epoch timestamps as `ℤ`
  milliseconds.  `Math.round` is Mathlib's `round` (half-up, matching JS).
* ISO timestamp strings are modelled by their parsed instant plus an executable
  renderer (`isoStringOfMillis`) implementing the proleptic-Gregorian civil
  calendar, exactly what `Date.prototype.toISOString` prints for the relevant
  range.  `toLocaleString('en-FI', {timeZone:'Europe/Helsinki'})` is modelled by
  `helsinkiStringOfMillis`, using the real EU daylight-saving rules
  (UTC+2, +3 between 01:00 UTC last Sunday of March and last Sunday of October).
* `Array.prototype.sort` with comparator `(a,b) => key(b) - key(a)` is modelled
  by the stable descending insertion sort `sortDescBy` (ES2019 requires sort to
  be stable and to realise the comparator order; the algorithm itself is
  unobservable).
-/

namespace Glooko

attribute [local semireducible] Rat.mul Rat.inv Rat.add Rat.sub Rat.ofScientific

/-! ## Integer helpers and decimal rendering -/

/-- Render a nonnegative remainder zero-padded to 2 digits. -/
def pad2 (n : Int) : String :=
  let m := n.natAbs
  if m < 10 then "0" ++ toString m else toString m

/-- Render a nonnegative remainder zero-padded to 3 digits. -/
def pad3 (n : Int) : String :=
  let m := n.natAbs
  if m < 10 then "00" ++ toString m
  else if m < 100 then "0" ++ toString m
  else toString m

/-- Render a year zero-padded to 4 digits (range 0–9999, as printed by
`toISOString` for the dates this program handles). -/
def pad4 (n : Int) : String :=
  let m := n.natAbs
  if m < 10 then "000" ++ toString m
  else if m < 100 then "00" ++ toString m
  else if m < 1000 then "0" ++ toString m
  else toString m

/-- A proleptic-Gregorian civil date. -/
structure CivilDate where
  year : Int
  month : Int
  day : Int
deriving Repr, DecidableEq

/-- Civil date from a count of days since 1970-01-01 (Howard Hinnant's
`civil_from_days` algorithm, the standard days-to-date conversion). -/
def civilFromDays (z0 : Int) : CivilDate :=
  let z := z0 + 719468
  let era := Int.fdiv z 146097
  let doe := z - era * 146097
  let yoe := Int.fdiv (doe - Int.fdiv doe 1460 + Int.fdiv doe 36524 - Int.fdiv doe 146096) 365
  let y := yoe + era * 400
  let doy := doe - (365 * yoe + Int.fdiv yoe 4 - Int.fdiv yoe 100)
  let mp := Int.fdiv (5 * doy + 2) 153
  let d := doy - Int.fdiv (153 * mp + 2) 5 + 1
  let m := mp + (if mp < 10 then 3 else -9)
  { year := y + (if m ≤ 2 then 1 else 0), month := m, day := d }

/-- Days since 1970-01-01 of a civil date (inverse of `civilFromDays`). -/
def daysFromCivil (y m d : Int) : Int :=
  let y2 := if m ≤ 2 then y - 1 else y
  let era := Int.fdiv y2 400
  let yoe := y2 - era * 400
  let mp := Int.fmod (m + 9) 12
  let doy := Int.fdiv (153 * mp + 2) 5 + d - 1
  let doe := yoe * 365 + Int.fdiv yoe 4 - Int.fdiv yoe 100 + doy
  era * 146097 + doe - 719468

def msPerDay : Int := 86400000
def msPerHour : Int := 3600000

/-- Render an epoch-milliseconds instant the way `Date.prototype.toISOString`
does: `yyyy-MM-ddTHH:mm:ss.SSSZ`. -/
def isoStringOfMillis (t : Int) : String :=
  let days := Int.fdiv t msPerDay
  let ms := Int.fmod t msPerDay
  let c := civilFromDays days
  let h := Int.fdiv ms msPerHour
  let mi := Int.fdiv (Int.fmod ms msPerHour) 60000
  let s := Int.fdiv (Int.fmod ms 60000) 1000
  let mss := Int.fmod ms 1000
  pad4 c.year ++ "-" ++ pad2 c.month ++ "-" ++ pad2 c.day ++ "T" ++
    pad2 h ++ ":" ++ pad2 mi ++ ":" ++ pad2 s ++ "." ++ pad3 mss ++ "Z"

/-- Day count (since epoch) of the last Sunday of a 31-day month.
1970-01-01 was a Thursday, so day `z` is a Sunday iff `(z + 4) % 7 = 0`. -/
def lastSundayOfMonthDays (y m : Int) : Int :=
  let z := daysFromCivil y m 31
  z - Int.fmod (z + 4) 7

/-- UTC offset of the `Europe/Helsinki` timezone at a UTC instant, in
milliseconds: EET (UTC+2), or EEST (UTC+3) between 01:00 UTC on the last Sunday
of March and 01:00 UTC on the last Sunday of October. -/
def helsinkiOffsetMs (t : Int) : Int :=
  let y := (civilFromDays (Int.fdiv t msPerDay)).year
  let dstStart := lastSundayOfMonthDays y 3 * msPerDay + msPerHour
  let dstEnd := lastSundayOfMonthDays y 10 * msPerDay + msPerHour
  if dstStart ≤ t ∧ t < dstEnd then 10800000 else 7200000

/-- Render an epoch-milliseconds instant the way
`toLocaleString('en-FI', {timeZone:'Europe/Helsinki'})` does:
`dd/MM/yyyy, HH:mm:ss` in Helsinki local time. -/
def helsinkiStringOfMillis (t : Int) : String :=
  let lt := t + helsinkiOffsetMs t
  let days := Int.fdiv lt msPerDay
  let ms := Int.fmod lt msPerDay
  let c := civilFromDays days
  let h := Int.fdiv ms msPerHour
  let mi := Int.fdiv (Int.fmod ms msPerHour) 60000
  let s := Int.fdiv (Int.fmod ms 60000) 1000
  pad2 c.day ++ "/" ++ pad2 c.month ++ "/" ++ pad4 c.year ++ ", " ++
    pad2 h ++ ":" ++ pad2 mi ++ ":" ++ pad2 s

/-- Smallest exponent `k ≤ 20` such that `q * 10^k` is an integer, when one
exists.  The raw data are finite decimal fractions, so this always succeeds on
real inputs. -/
def decExponent (q : ℚ) : Option Nat :=
  (List.range 21).find? (fun k => (q * (10 : ℚ) ^ k).den = 1)

/-- Render a rational the way JS template literals render the corresponding
number: integers without a decimal point (`5.0` prints as `"5"`), finite
decimals with their shortest decimal expansion (`8.2` prints as `"8.2"`). -/
def jsRatToString (q : ℚ) : String :=
  match decExponent q with
  | some 0 => toString q.num
  | some k =>
    let n := (q * (10 : ℚ) ^ k).num
    let sign := if n < 0 then "-" else ""
    let digits := toString n.natAbs
    let digits :=
      if digits.length ≤ k then
        String.mk (List.replicate (k + 1 - digits.length) '0') ++ digits
      else digits
    sign ++ digits.take (digits.length - k) ++ "." ++ digits.drop (digits.length - k)
  | none => toString q

/-! ## Stable descending sort (model of `Array.prototype.sort` with a
`(a,b) => key(b) - key(a)` comparator) -/

/-- Insert `x` into a list sorted descending by `key`, after all elements with a
strictly larger key and before the first element whose key is `≤ key x`
(stability: elements comparing equal keep their original order). -/
def insertDescBy {α : Type} (key : α → Int) (x : α) : List α → List α
  | [] => [x]
  | y :: ys => if key x < key y then y :: insertDescBy key x ys else x :: y :: ys

/-- Stable insertion sort, descending by `key`. -/
def sortDescBy {α : Type} (key : α → Int) : List α → List α
  | [] => []
  | x :: xs => insertDescBy key x (sortDescBy key xs)

theorem insertDescBy_perm {α : Type} (key : α → Int) (x : α) (l : List α) :
    (insertDescBy key x l).Perm (x :: l) := by
  induction l with
  | nil => exact List.Perm.refl _
  | cons y ys ih =>
    rw [insertDescBy]
    by_cases hc : key x < key y
    · rw [if_pos hc]
      exact (List.Perm.cons y ih).trans (List.Perm.swap x y ys)
    · rw [if_neg hc]

theorem sortDescBy_perm {α : Type} (key : α → Int) (l : List α) :
    (sortDescBy key l).Perm l := by
  induction l with
  | nil => exact List.Perm.refl _
  | cons x xs ih =>
    rw [sortDescBy]
    exact (insertDescBy_perm key x (sortDescBy key xs)).trans (List.Perm.cons x ih)

theorem mem_insertDescBy {α : Type} (key : α → Int) (x b : α) (l : List α) :
    b ∈ insertDescBy key x l ↔ b = x ∨ b ∈ l := by
  rw [(insertDescBy_perm key x l).mem_iff, List.mem_cons]

theorem mem_sortDescBy {α : Type} (key : α → Int) (b : α) (l : List α) :
    b ∈ sortDescBy key l ↔ b ∈ l :=
  (sortDescBy_perm key l).mem_iff

theorem insertDescBy_pairwise {α : Type} (key : α → Int) (x : α) (l : List α)
    (h : l.Pairwise (fun a b => key b ≤ key a)) :
    (insertDescBy key x l).Pairwise (fun a b => key b ≤ key a) := by
  induction l with
  | nil => simp [insertDescBy]
  | cons y ys ih =>
    rw [List.pairwise_cons] at h
    rw [insertDescBy]
    by_cases hc : key x < key y
    · rw [if_pos hc, List.pairwise_cons]
      refine ⟨?_, ih h.2⟩
      intro b hb
      rcases (mem_insertDescBy key x b ys).mp hb with hbx | hby
      · rw [hbx]; exact le_of_lt hc
      · exact h.1 b hby
    · rw [if_neg hc, List.pairwise_cons]
      push_neg at hc
      refine ⟨?_, List.pairwise_cons.mpr h⟩
      intro b hb
      rcases List.mem_cons.mp hb with hby | hbys
      · rw [hby]; exact hc
      · exact le_trans (h.1 b hbys) hc

theorem sortDescBy_pairwise {α : Type} (key : α → Int) (l : List α) :
    (sortDescBy key l).Pairwise (fun a b => key b ≤ key a) := by
  induction l with
  | nil => simp [sortDescBy]
  | cons x xs ih => exact insertDescBy_pairwise key x (sortDescBy key xs) ih

/-- The head of the sorted list has the maximal key among the input. -/
theorem sortDescBy_head_ge {α : Type} (key : α → Int) (l : List α) (hd : α)
    (tl : List α) (h : sortDescBy key l = hd :: tl) :
    ∀ r ∈ l, key r ≤ key hd := by
  intro r hr
  have hr2 : r ∈ hd :: tl := by
    rw [← h, mem_sortDescBy]; exact hr
  have hp := sortDescBy_pairwise key l
  rw [h, List.pairwise_cons] at hp
  rcases List.mem_cons.mp hr2 with hrh | hrt
  · rw [hrh]
  · exact hp.1 r hrt

/-! ## Data model

Types mirror the objects flowing through `fetchCGMReadings` /
`transformToNightscout` / `getLatestCGMData` in `glooko-cgm-reader.js`. -/

/-- The conversion factor used by the source: mmol/L × 18.0143 = mg/dL. -/
def glookoFactor : ℚ := 18.0143

/-- `Math.round` (round half towards +∞), written directly on the rational's
numerator and denominator so that it evaluates by kernel reduction:
`⌊q + 1/2⌋ = ⌊(2 num + den) / (2 den)⌋`. -/
def jsRound (q : ℚ) : ℤ := (2 * q.num + (q.den : ℤ)) / (2 * (q.den : ℤ))

/-- `jsRound` agrees with Mathlib's `round` (which also rounds half up). -/
theorem jsRound_eq_round (q : ℚ) : jsRound q = round q := by
  have key : q + 1/2 = ((2 * q.num + (q.den : ℤ) : ℤ) : ℚ) / ((2 * q.den : ℕ) : ℚ) := by
    have hd : ((q.den : ℤ) : ℚ) ≠ 0 := by
      exact_mod_cast (Nat.cast_ne_zero (R := ℚ)).mpr q.den_nz
    conv_lhs => rw [← Rat.num_div_den q]
    push_cast
    field_simp
    ring
  rw [round_eq, key, Rat.floor_intCast_div_natCast, jsRound]
  push_cast
  rfl

/-- A raw point of one band of the graph-API response
(`series.cgmHigh/cgmNormal/cgmLow[i]`).  `timestampMs` is the instant denoted
by the upstream ISO `timestamp` label; `value` is Glooko's internal value
(`y * 1801.43`). -/
structure GraphPoint where
  x : Int
  y : ℚ
  value : ℚ
  timestampMs : Int
  mealTag : String
  calculated : Bool
deriving Repr, DecidableEq

/-- The graph-API response body: three bands of raw points. -/
structure Series where
  cgmHigh : List GraphPoint
  cgmNormal : List GraphPoint
  cgmLow : List GraphPoint
deriving Repr, DecidableEq

/-- Band concatenation in source order: `[...cgmHigh, ...cgmNormal, ...cgmLow]`. -/
def seriesPoints (s : Series) : List GraphPoint :=
  s.cgmHigh ++ s.cgmNormal ++ s.cgmLow

/-- A reading as built by the `allCgmReadings.map(point => ...)` step of
`fetchCGMReadings`.  The source sets both `timestampUTC` and `timestamp` to
`point.timestamp`; they are identical, so one field models both.  `trend` is
always set to `null` by this path (the graph API has no trend data). -/
structure Reading where
  value : ℚ
  timestampMs : Int
  y_mmol : ℚ
  x : Int
  mealTag : String
  calculated : Bool
  glookoValue : ℚ
  guid : String
  trend : Option String
  deviceName : String
deriving Repr, DecidableEq

/-- The per-point conversion of `fetchCGMReadings`: mg/dL value
`Math.round(point.y * 18.0143)`, synthetic identifier
`` `glooko_${point.x}_${point.y}` ``, `trend: null`, `deviceName: 'glooko-cgm'`. -/
def convertPoint (p : GraphPoint) : Reading :=
  { value := ((jsRound (p.y * glookoFactor) : Int) : ℚ)
  , timestampMs := p.timestampMs
  , y_mmol := p.y
  , x := p.x
  , mealTag := p.mealTag
  , calculated := p.calculated
  , glookoValue := p.value
  , guid := "glooko_" ++ toString p.x ++ "_" ++ jsRatToString p.y
  , trend := none
  , deviceName := "glooko-cgm" }

/-- The readings list returned by a successful `fetchCGMReadings` attempt:
bands concatenated, converted point-wise, and (when non-empty; trivially also
when empty) sorted newest-first by the raw `timestampUTC`/`timestamp` instant. -/
def fetchReadingsFromSeries (s : Series) : List Reading :=
  sortDescBy (fun r => r.timestampMs) ((seriesPoints s).map convertPoint)

/-- The instance fields `lastGuid` / `lastReadingTime` that back the
checkpoint (`lastReadingTime` is stored as an ISO string in the source and
modelled by the instant it denotes). -/
structure ReaderState where
  lastGuid : Option String
  lastReadingTime : Option Int
deriving Repr, DecidableEq

/-- JS truthiness of the stored `lastGuid` string: non-null and non-empty. -/
def guidTruthy : Option String → Bool
  | none => false
  | some s => !(s == "")

/-- The checkpoint update of a successful fetch attempt: when at least one
reading was retrieved, `lastGuid`/`lastReadingTime` become the newest (first
after the newest-first sort) reading's synthetic guid and raw timestamp. -/
def fetchSuccess (st : ReaderState) (s : Series) : List Reading × ReaderState :=
  match fetchReadingsFromSeries s with
  | [] => ([], st)
  | newest :: rest =>
    (newest :: rest,
     { lastGuid := some newest.guid, lastReadingTime := some newest.timestampMs })

/-! ## Window planning (`fetchCGMReadings`, lines 355–384) -/

/-- The fetch parameters derived at the top of a `fetchCGMReadings` attempt:
classification (`FULL`/`INCREMENTAL`), the `startTime` variable, and the
`startDate`/`endDate` actually placed in the graph-API request URL. -/
structure FetchPlan where
  guid : String
  fetchType : String
  startTimeMs : Int
  startDateMs : Int
  endDateMs : Int
  limit : Int
deriving Repr, DecidableEq

/-- Window planning: FULL when `forceFullFetch` or either checkpoint field is
missing (JS-falsy), else INCREMENTAL starting at `lastReadingTime`.  The URL
`startDate`/`endDate` are the UTC day bounds of `now` when `forceFullFetch`,
else `startTime`/`now`.  `limit` is `Math.min(2880, Math.ceil(hours * 12))`. -/
def planFetch (st : ReaderState) (forceFullFetch : Bool) (hoursBack : Int)
    (nowMs : Int) : FetchPlan :=
  let full := forceFullFetch || !guidTruthy st.lastGuid || !st.lastReadingTime.isSome
  let guid := if full then "1e0c094e-1e54-4a4f-8e6a-f94484b53789"
              else st.lastGuid.getD ""
  let startTime := if full then nowMs - hoursBack * msPerHour
                   else st.lastReadingTime.getD 0
  let fetchType := if full then "FULL" else "INCREMENTAL"
  let hoursSinceStart : ℚ := ((nowMs - startTime : Int) : ℚ) / 3600000
  let limit := min 2880 ⌈hoursSinceStart * 12⌉
  let dayStart := msPerDay * Int.fdiv nowMs msPerDay
  let startDate := if forceFullFetch then dayStart else startTime
  let endDate := if forceFullFetch then dayStart + 86399999 else nowMs
  { guid := guid, fetchType := fetchType, startTimeMs := startTime
  , startDateMs := startDate, endDateMs := endDate, limit := limit }

/-! ## Trend mapping (`getTrendArrow`) -/

/-- The literal `trendMap` object of `getTrendArrow`. -/
def trendMap : List (String × String) :=
  [ ("RISING_QUICKLY", "DoubleUp")
  , ("RISING", "SingleUp")
  , ("RISING_SLIGHTLY", "FortyFiveUp")
  , ("STEADY", "Flat")
  , ("FALLING_SLIGHTLY", "FortyFiveDown")
  , ("FALLING", "SingleDown")
  , ("FALLING_QUICKLY", "DoubleDown")
  , ("1", "DoubleUp")
  , ("2", "SingleUp")
  , ("3", "FortyFiveUp")
  , ("4", "Flat")
  , ("5", "FortyFiveDown")
  , ("6", "SingleDown")
  , ("7", "DoubleDown")
  , ("NONE", "NONE")
  , ("NOT_COMPUTABLE", "NOT COMPUTABLE")
  , ("RATE_OUT_OF_RANGE", "RateOutOfRange")
  , ("9", "NOT COMPUTABLE")
  , ("0", "NONE") ]

/-- Model of `getTrendArrow(trend)`: `trendMap[trend] || trendMap[String(trend)]
|| 'NONE'`.  Codes are modelled as strings (JS object keys are strings, and the
`String(trend)` fallback stringifies numeric codes); `none` models
`null`/`undefined`, for which both lookups miss. -/
def getTrendArrow (trend : Option String) : String :=
  match trend with
  | none => "NONE"
  | some t => (trendMap.lookup t).getD "NONE"

/-! ## Transformation (`transformToNightscout`) -/

/-- A Nightscout entry as built by `transformToNightscout`.  String-valued
timestamp fields are modelled by the rendered strings themselves.  The optional
instrument fields (`transmitterId`, `noise`, `filtered`, `unfiltered`, `rssi`)
are never present on graph-API readings and are omitted from the model. -/
structure Entry where
  type : String
  sgv : Int
  sgv_mmol : ℚ
  date : Int
  dateString : String
  localTime : String
  direction : String
  device : String
  glookoGuid : Option String
deriving Repr, DecidableEq

/-- The fixed timezone correction: 2 hours in milliseconds. -/
def tzCorrectionMs : Int := 2 * 60 * 60 * 1000

/-- Per-reading conversion of `transformToNightscout`: subtract the fixed
2-hour correction from the parsed timestamp, round the mg/dL value, map the
trend (`reading.trend || reading.trendArrow || reading.trendValue`, which for
graph-API readings is just `reading.trend`), and keep the guid when truthy. -/
def entryOfReading (r : Reading) : Entry :=
  let corrected := r.timestampMs - tzCorrectionMs
  { type := "sgv"
  , sgv := jsRound r.value
  , sgv_mmol := r.y_mmol
  , date := corrected
  , dateString := isoStringOfMillis corrected
  , localTime := helsinkiStringOfMillis corrected
  , direction := getTrendArrow r.trend
  , device := if r.deviceName == "" then "glooko-cgm" else r.deviceName
  , glookoGuid := if r.guid == "" then none else some r.guid }

/-- The validity filter of `transformToNightscout`:
`entry.sgv_mmol && entry.sgv_mmol > 0 && entry.sgv_mmol < 30`
(the leading conjunct is JS truthiness of the number, i.e. non-zero). -/
def keepEntry (e : Entry) : Bool :=
  !(e.sgv_mmol == 0) && decide (0 < e.sgv_mmol) && decide (e.sgv_mmol < 30)

/-- `transformToNightscout`: map, filter, then sort newest-first by the
corrected `date`. -/
def transformToNightscout (rs : List Reading) : List Entry :=
  sortDescBy (fun e => e.date) ((rs.map entryOfReading).filter keepEntry)

/-! ## Errors and the retry loop (`fetchCGMReadings`, lines 349–519) -/

/-- A thrown JS error as observed by the catch block: an optional HTTP response
status (`error.response?.status`) and a message.  Bad-credential authentication
errors (thrown from `authenticate`) carry no response status. -/
structure JsError where
  status : Option Nat
  message : String
deriving Repr, DecidableEq

/-- The session-expiry test of the catch block:
`error.response?.status === 401 || error.response?.status === 403`. -/
def isAuthStatus (e : JsError) : Bool :=
  e.status == some 401 || e.status == some 403

deriving instance DecidableEq for Except

/-- Execution trace of one run of the `while (retryCount < maxRetries)` loop:
final outcome, the backoff delays awaited (ms), the `forceNew` flag passed to
`authenticate` on each executed attempt, and for each failed attempt whether
the cached session was cleared (401/403). -/
structure LoopTrace (α : Type) where
  result : Except JsError α
  delays : List Int
  forceNewFlags : List Bool
  sessionCleared : List Bool
deriving Repr, DecidableEq

/-- One step of the retry loop.  `rc` is the current `retryCount`; the fuel is
`maxRetries - rc`, so fuel 0 models the loop condition failing (the source then
falls off the function, returning `undefined`; modelled as an error).  On an
error the count is incremented; at `retryCount >= maxRetries` the error is
rethrown, otherwise the loop sleeps `5000 * retryCount` ms and retries. -/
def fetchLoopGo {α : Type} (attempts : Nat → Except JsError α)
    (maxRetries : Nat) : Nat → Nat → LoopTrace α
  | _, 0 =>
    ⟨.error { status := none, message := "fetch loop exited without result" },
     [], [], []⟩
  | rc, fuel + 1 =>
    match attempts rc with
    | .ok v => ⟨.ok v, [], [decide (0 < rc)], []⟩
    | .error e =>
      if maxRetries ≤ rc + 1 then
        ⟨.error e, [], [decide (0 < rc)], [isAuthStatus e]⟩
      else
        let t := fetchLoopGo attempts maxRetries (rc + 1) fuel
        ⟨t.result, 5000 * ((rc : Int) + 1) :: t.delays,
         decide (0 < rc) :: t.forceNewFlags, isAuthStatus e :: t.sessionCleared⟩

/-- The whole retry loop of `fetchCGMReadings`, starting at `retryCount = 0`.
`attempts i` is the outcome of the `try` body on attempt `i` (authentication
included — the `await this.authenticate(...)` call sits inside the `try`). -/
def fetchLoop {α : Type} (attempts : Nat → Except JsError α)
    (maxRetries : Nat) : LoopTrace α :=
  fetchLoopGo attempts maxRetries 0 maxRetries

/-- Default `maxRetries` of `fetchCGMReadings`. -/
def defaultMaxRetries : Nat := 3

/-! ## Orchestration (`getLatestCGMData`) -/

/-- Render `((elapsedMs)/1000).toFixed(2) + 's'` (ties round up, as `toFixed`
picks the larger candidate; elapsed times are nonnegative). -/
def fmtExecutionTime (elapsedMs : Int) : String :=
  let n := Int.fdiv (elapsedMs + 5) 10
  toString (Int.fdiv n 100) ++ "." ++ pad2 (Int.fmod n 100) ++ "s"

/-- The result object of `getLatestCGMData`.  The failure object carries only
`success`, `error`, `entries` and `executionTime`; fields absent on it are
modelled as `none`. -/
structure SyncResult where
  success : Bool
  error : Option String
  entries : List Entry
  count : Option Nat
  latestReading : Option Entry
  oldestReading : Option Entry
  executionTime : String
  checkpoint : Option (Option String × Option Int)
deriving Repr, DecidableEq

/-- One cycle's outcome: the returned result, the reader state afterwards, and
whether `saveCheckpoint()` was invoked. -/
structure CycleOutcome where
  result : SyncResult
  state : ReaderState
  checkpointSaved : Bool
deriving Repr, DecidableEq

/-- The body of `getLatestCGMData` after checkpoint load, given the overall
outcome of `fetchCGMReadings` (post-retries): on success, transform, save the
checkpoint iff at least one raw reading was retrieved, and build the success
result; on a thrown error, catch it and build the failure result
`{success:false, error, entries:[], executionTime}`. -/
def runCycle (st : ReaderState) (fetched : Except JsError Series)
    (elapsedMs : Int) : CycleOutcome :=
  match fetched with
  | .error e =>
    ⟨{ success := false, error := some e.message, entries := [], count := none
     , latestReading := none, oldestReading := none
     , executionTime := fmtExecutionTime elapsedMs, checkpoint := none }
    , st, false⟩
  | .ok s =>
    let pr := fetchSuccess st s
    let entries := transformToNightscout pr.1
    ⟨{ success := true, error := none, entries := entries
     , count := some entries.length
     , latestReading := entries.head?, oldestReading := entries.getLast?
     , executionTime := fmtExecutionTime elapsedMs
     , checkpoint := some (pr.2.lastGuid, pr.2.lastReadingTime) }
    , pr.2, !pr.1.isEmpty⟩

/-- `getLatestCGMData`: run the retry loop and feed its outcome through
`runCycle`.  Total by construction — every exception becomes a failure result,
never a throw. -/
def getLatestCGMData (st : ReaderState) (attempts : Nat → Except JsError Series)
    (maxRetries : Nat) (elapsedMs : Int) : CycleOutcome :=
  runCycle st (fetchLoop attempts maxRetries).result elapsedMs

/-! ## Concrete sample data used by witnesses and counterexamples -/

/-- A raw graph point at a given instant (ms) with native value `v` mmol/L,
as the upstream API delivers it (`x` in epoch seconds, `value = y * 1801.43`). -/
def samplePoint (ts : Int) (v : ℚ) : GraphPoint :=
  { x := Int.fdiv ts 1000, y := v, value := v * 1801.43
  , timestampMs := ts, mealTag := "none", calculated := false }

/-- Three raw points at native values 5.0 / 8.2 / 12.1, five minutes apart,
one per band (the end-to-end scenario of spec §8). -/
def exampleSeries3 : Series :=
  { cgmHigh := [samplePoint 600000 (121/10)]
  , cgmNormal := [samplePoint 300000 (41/5)]
  , cgmLow := [samplePoint 0 5] }

/-! ## Claim theorems -/

/-- C6: for every raw point with native value `v` mmol/L, the produced mg/dL
value equals `round(v * 18.0143)`; converting that value back to mmol/L lands
within one mg/dL unit of rounding tolerance of `v`; and natives 5.0, 8.2, 12.1
yield sgv 90, 148, 218 (shown both on the bare conversion and end-to-end
through the pipeline, newest-first). -/
theorem unit_conversion_round_trip :
    (∀ p : GraphPoint, (entryOfReading (convertPoint p)).sgv = round (p.y * glookoFactor)) ∧
    (∀ v : ℚ, |((round (v * glookoFactor) : ℤ) : ℚ) / glookoFactor - v| ≤ 1 / glookoFactor) ∧
    round ((5 : ℚ) * glookoFactor) = 90 ∧
    round ((41/5 : ℚ) * glookoFactor) = 148 ∧
    round ((121/10 : ℚ) * glookoFactor) = 218 ∧
    (transformToNightscout (fetchReadingsFromSeries exampleSeries3)).map Entry.sgv
      = [218, 148, 90] := by
  refine ⟨?_, ?_, by rw [← jsRound_eq_round]; decide, by rw [← jsRound_eq_round]; decide,
    by rw [← jsRound_eq_round]; decide, by decide⟩
  · intro p
    simp [entryOfReading, convertPoint, jsRound_eq_round, round_intCast]
  · intro v
    have hf : (0 : ℚ) < glookoFactor := by norm_num [glookoFactor]
    have h1 : ((round (v * glookoFactor) : ℤ) : ℚ) / glookoFactor - v
        = (((round (v * glookoFactor) : ℤ) : ℚ) - v * glookoFactor) / glookoFactor := by
      rw [sub_div, mul_div_cancel_right₀ _ hf.ne']
    have h2 := abs_sub_round (v * glookoFactor)
    rw [h1, abs_div, abs_of_pos hf, abs_sub_comm]
    exact (div_le_div_iff_of_pos_right hf).mpr (h2.trans (by norm_num))

/-- C7: the transformation drops every record whose native mmol/L value is
≤ 0 or ≥ 30 and keeps every record strictly between; concretely 0 and 30 are
dropped while 0.01 and 29.99 survive the full transformation. -/
theorem validity_filter_boundaries :
    (∀ r : Reading, (keepEntry (entryOfReading r) = true ↔ 0 < r.y_mmol ∧ r.y_mmol < 30)) ∧
    (transformToNightscout
        [ convertPoint (samplePoint 0 0), convertPoint (samplePoint 1000 30)
        , convertPoint (samplePoint 2000 (1/100)), convertPoint (samplePoint 3000 (2999/100)) ]).map
      Entry.sgv_mmol = [2999/100, 1/100] := by
  refine ⟨?_, by decide⟩
  intro r
  simp only [keepEntry, entryOfReading, Bool.and_eq_true, Bool.not_eq_true',
    beq_eq_false_iff_ne, ne_eq, decide_eq_true_eq]
  constructor
  · rintro ⟨⟨-, h2⟩, h3⟩
    exact ⟨h2, h3⟩
  · rintro ⟨h2, h3⟩
    exact ⟨⟨ne_of_gt h2, h2⟩, h3⟩

/-- C8: every output record's epoch-millis `date`, ISO `dateString` and local
display time are derived from the parsed upstream timestamp minus exactly
7,200,000 ms (2 hours), and the surviving records are sorted newest-first by
that corrected timestamp.  The concrete conjuncts evaluate the rendered
strings at a sample instant. -/
theorem timezone_correction_and_sort :
    tzCorrectionMs = 7200000 ∧
    (∀ r : Reading,
      (entryOfReading r).date = r.timestampMs - 7200000 ∧
      (entryOfReading r).dateString = isoStringOfMillis (r.timestampMs - 7200000) ∧
      (entryOfReading r).localTime = helsinkiStringOfMillis (r.timestampMs - 7200000)) ∧
    (∀ rs : List Reading, (transformToNightscout rs).Pairwise (fun a b => b.date ≤ a.date)) ∧
    (entryOfReading (convertPoint (samplePoint 1725184530000 (41/5)))).dateString
      = "2024-09-01T07:55:30.000Z" ∧
    (entryOfReading (convertPoint (samplePoint 1725184530000 (41/5)))).localTime
      = "01/09/2024, 10:55:30" := by
  refine ⟨by decide, ?_, ?_, by decide, by decide⟩
  · intro r
    refine ⟨?_, ?_, ?_⟩ <;> simp only [entryOfReading, tzCorrectionMs] <;> norm_num
  · intro rs
    exact sortDescBy_pairwise _ _

/-- C9: band concatenation, synthetic identifier assignment and the
newest-first sort form a deterministic pure function of the band contents:
merging the same bands twice yields identical output, the output is a
newest-first-ordered permutation of the converted points, and every output
identifier has the form `glooko_<epochSeconds>_<valueNative>`. -/
theorem merge_idempotent_deterministic :
    (∀ b : Series, fetchReadingsFromSeries b = fetchReadingsFromSeries b) ∧
    (∀ b : Series, (fetchReadingsFromSeries b).Perm ((seriesPoints b).map convertPoint)) ∧
    (∀ b : Series,
      (fetchReadingsFromSeries b).Pairwise (fun a c => c.timestampMs ≤ a.timestampMs)) ∧
    (∀ b : Series, ∀ r ∈ fetchReadingsFromSeries b, ∃ p ∈ seriesPoints b,
        r = convertPoint p ∧
        r.guid = "glooko_" ++ toString p.x ++ "_" ++ jsRatToString p.y) ∧
    (fetchReadingsFromSeries exampleSeries3).map Reading.guid
      = ["glooko_600_12.1", "glooko_300_8.2", "glooko_0_5"] := by
  refine ⟨fun b => rfl, fun b => sortDescBy_perm _ _, fun b => sortDescBy_pairwise _ _,
    ?_, by decide⟩
  intro b r hr
  rw [fetchReadingsFromSeries, mem_sortDescBy] at hr
  obtain ⟨p, hp, rfl⟩ := List.mem_map.mp hr
  exact ⟨p, hp, rfl, rfl⟩

/-- C9 witness: the identifier-form component instantiated on the concrete
three-band example at its newest reading. -/
theorem merge_idempotent_deterministic_witness :
    ∃ p ∈ seriesPoints exampleSeries3,
      convertPoint (samplePoint 600000 (121/10)) = convertPoint p ∧
      (convertPoint (samplePoint 600000 (121/10))).guid
        = "glooko_" ++ toString p.x ++ "_" ++ jsRatToString p.y :=
  merge_idempotent_deterministic.2.2.2.1 exampleSeries3
    (convertPoint (samplePoint 600000 (121/10))) (by decide)

/-- C10: every record produced through the graph-API fetch path has direction
`NONE`: the fetch sets `trend` to `null`, and `getTrendArrow` maps a missing
code to `NONE`. -/
theorem direction_always_none (s : Series) (e : Entry)
    (he : e ∈ transformToNightscout (fetchReadingsFromSeries s)) :
    e.direction = "NONE" ∧ getTrendArrow none = "NONE" := by
  refine ⟨?_, rfl⟩
  rw [transformToNightscout, mem_sortDescBy] at he
  obtain ⟨he1, -⟩ := List.mem_filter.mp he
  obtain ⟨r, hr, rfl⟩ := List.mem_map.mp he1
  rw [fetchReadingsFromSeries, mem_sortDescBy] at hr
  obtain ⟨p, hp, rfl⟩ := List.mem_map.mp hr
  simp [entryOfReading, convertPoint, getTrendArrow]

/-- C10 witness: the theorem applied to the concrete three-band example at its
newest entry. -/
theorem direction_always_none_witness :
    (entryOfReading (convertPoint (samplePoint 600000 (121/10)))).direction = "NONE" ∧
    getTrendArrow none = "NONE" :=
  direction_always_none exampleSeries3
    (entryOfReading (convertPoint (samplePoint 600000 (121/10)))) (by decide)

/-! ## Helper lemmas for window planning and the cycle -/

/-- With `forceFullFetch = false` and a truthy checkpoint, `planFetch` yields
the incremental plan verbatim. -/
theorem planFetch_incremental (st : ReaderState) (g : String) (T nowMs hoursBack : Int)
    (hg : st.lastGuid = some g) (hg2 : g ≠ "") (hT : st.lastReadingTime = some T) :
    planFetch st false hoursBack nowMs =
      { guid := g, fetchType := "INCREMENTAL", startTimeMs := T, startDateMs := T
      , endDateMs := nowMs
      , limit := min 2880 ⌈(((nowMs - T : Int) : ℚ) / 3600000) * 12⌉ } := by
  have hbeq : (g == "") = false := beq_eq_false_iff_ne.mpr hg2
  simp [planFetch, hg, hT, guidTruthy, hbeq]

/-- When `forceFullFetch` is set or either checkpoint field is missing, the
fetch is classified FULL. -/
theorem planFetch_full_type (st : ReaderState) (ff : Bool) (hoursBack nowMs : Int)
    (h : ff = true ∨ st.lastGuid = none ∨ st.lastReadingTime = none) :
    (planFetch st ff hoursBack nowMs).fetchType = "FULL" := by
  rcases h with h | h | h <;> simp [planFetch, h, guidTruthy]

/-- The readings list of a successful attempt equals the sorted conversion of
the series, whatever branch `fetchSuccess` takes. -/
theorem fetchSuccess_fst (st : ReaderState) (s : Series) :
    (fetchSuccess st s).1 = fetchReadingsFromSeries s := by
  rcases h : fetchReadingsFromSeries s with - | ⟨n, rest⟩ <;> simp [fetchSuccess, h]

/-- The state update of a successful attempt with at least one reading. -/
theorem fetchSuccess_snd_cons (st : ReaderState) (s : Series) (newest : Reading)
    (rest : List Reading) (h : fetchReadingsFromSeries s = newest :: rest) :
    (fetchSuccess st s).2
      = { lastGuid := some newest.guid, lastReadingTime := some newest.timestampMs } := by
  simp [fetchSuccess, h]

/-- The state is untouched when no readings were retrieved. -/
theorem fetchSuccess_snd_nil (st : ReaderState) (s : Series)
    (h : fetchReadingsFromSeries s = []) : (fetchSuccess st s).2 = st := by
  simp [fetchSuccess, h]

/-- No readings come out iff no raw points went in. -/
theorem fetchReadings_eq_nil_iff (s : Series) :
    fetchReadingsFromSeries s = [] ↔ seriesPoints s = [] := by
  constructor
  · intro h
    have hlen := (sortDescBy_perm (fun r => r.timestampMs)
      ((seriesPoints s).map convertPoint)).length_eq
    rw [fetchReadingsFromSeries] at h
    rw [h] at hlen
    simp only [List.length_nil, List.length_map] at hlen
    exact List.length_eq_zero.mp hlen.symm
  · intro h
    rw [fetchReadingsFromSeries, h]
    rfl

/-! ## Claim theorems for planning, retries, orchestration and checkpointing -/

/-- C2: with `forceFull = false` and a checkpoint carrying both fields, the
fetch is INCREMENTAL and the request window is exactly
`[lastReadingTime, now]`; with `forceFull` or a missing checkpoint field it is
FULL. -/
theorem window_incremental_start_eq_checkpoint (st : ReaderState) (g : String)
    (T nowMs hoursBack : Int) (hg : st.lastGuid = some g) (hg2 : g ≠ "")
    (hT : st.lastReadingTime = some T) :
    (planFetch st false hoursBack nowMs).fetchType = "INCREMENTAL" ∧
    (planFetch st false hoursBack nowMs).startTimeMs = T ∧
    (planFetch st false hoursBack nowMs).startDateMs = T ∧
    (planFetch st false hoursBack nowMs).endDateMs = nowMs ∧
    (∀ (st2 : ReaderState) (ff : Bool) (hb now2 : Int),
      (ff = true ∨ st2.lastGuid = none ∨ st2.lastReadingTime = none) →
      (planFetch st2 ff hb now2).fetchType = "FULL") := by
  have h := planFetch_incremental st g T nowMs hoursBack hg hg2 hT
  rw [h]
  exact ⟨rfl, rfl, rfl, rfl, planFetch_full_type⟩

/-- C2 witness: the theorem instantiated on a concrete checkpoint, plus the
FULL branch at a concrete empty checkpoint. -/
theorem window_incremental_start_eq_checkpoint_witness :
    (planFetch { lastGuid := some "glooko_100_5", lastReadingTime := some 100000 }
        false 24 200000).fetchType = "INCREMENTAL" ∧
    (planFetch { lastGuid := some "glooko_100_5", lastReadingTime := some 100000 }
        false 24 200000).startDateMs = 100000 ∧
    (planFetch { lastGuid := some "glooko_100_5", lastReadingTime := some 100000 }
        false 24 200000).endDateMs = 200000 ∧
    (planFetch { lastGuid := none, lastReadingTime := none } false 24 200000).fetchType
      = "FULL" := by
  have h := window_incremental_start_eq_checkpoint
    { lastGuid := some "glooko_100_5", lastReadingTime := some 100000 }
    "glooko_100_5" 100000 200000 24 rfl (by decide) rfl
  exact ⟨h.1, h.2.2.1, h.2.2.2.1, h.2.2.2.2 _ false 24 200000 (Or.inr (Or.inl rfl))⟩

/-- State with a checkpoint in the future of `now` (clock skew scenario). -/
def skewState : ReaderState :=
  { lastGuid := some "glooko_1_5", lastReadingTime := some 1000 }

/-- C3 counterexample: with checkpoint `lastReadingTime = 1000` and `now = 0`,
the planned window is `[1000, 0]` — the start is the checkpoint value, not
`now`, and it exceeds the end; the claimed clamp to `[now, now]` does not
happen. -/
theorem clock_skew_counterexample :
    (planFetch skewState false 24 0).startDateMs = 1000 ∧
    (planFetch skewState false 24 0).endDateMs = 0 ∧
    ¬((planFetch skewState false 24 0).startDateMs = 0 ∧
      (planFetch skewState false 24 0).endDateMs = 0) ∧
    (planFetch skewState false 24 0).endDateMs
      < (planFetch skewState false 24 0).startDateMs := by
  decide

/-- C3 amended: for every checkpoint whose `lastReadingTime` is strictly
greater than `now`, the planned fetch window is `[lastReadingTime, now]`, an
inverted window whose start exceeds its end; planning neither clamps nor
fails. -/
theorem clock_skew_inverted_window (st : ReaderState) (g : String)
    (T nowMs hoursBack : Int) (hg : st.lastGuid = some g) (hg2 : g ≠ "")
    (hT : st.lastReadingTime = some T) (hskew : nowMs < T) :
    (planFetch st false hoursBack nowMs).fetchType = "INCREMENTAL" ∧
    (planFetch st false hoursBack nowMs).startDateMs = T ∧
    (planFetch st false hoursBack nowMs).endDateMs = nowMs ∧
    (planFetch st false hoursBack nowMs).endDateMs
      < (planFetch st false hoursBack nowMs).startDateMs := by
  have h := planFetch_incremental st g T nowMs hoursBack hg hg2 hT
  rw [h]
  exact ⟨rfl, rfl, rfl, hskew⟩

/-- C3 amended witness: the theorem instantiated on the concrete skew state. -/
theorem clock_skew_inverted_window_witness :
    (planFetch skewState false 24 0).fetchType = "INCREMENTAL" ∧
    (planFetch skewState false 24 0).startDateMs = 1000 ∧
    (planFetch skewState false 24 0).endDateMs = 0 ∧
    (planFetch skewState false 24 0).endDateMs
      < (planFetch skewState false 24 0).startDateMs :=
  clock_skew_inverted_window skewState "glooko_1_5" 1000 0 24 rfl (by decide) rfl
    (by decide)

/-- A bad-credential authentication failure: thrown from `authenticate`, hence
no HTTP response status on the error object. -/
def badCredentialError : JsError :=
  { status := none, message := "Login failed: Invalid email or password" }

/-- Attempt trace whose first attempt fails with bad credentials and whose
second succeeds. -/
def retryAttemptsExample : Nat → Except JsError Series :=
  fun i => if i = 0 then .error badCredentialError else .ok exampleSeries3

/-- C4 counterexample: a bad-credential authentication failure is NOT fatal:
the loop retries it after a 5000 ms backoff (re-authenticating, `forceNew`
true on the retry) and the cycle succeeds on the second attempt. -/
theorem auth_error_retried_counterexample :
    (fetchLoop retryAttemptsExample defaultMaxRetries).result = .ok exampleSeries3 ∧
    (fetchLoop retryAttemptsExample defaultMaxRetries).delays = [5000] ∧
    (fetchLoop retryAttemptsExample defaultMaxRetries).forceNewFlags = [false, true] ∧
    (fetchLoop retryAttemptsExample defaultMaxRetries).result
      ≠ .error badCredentialError := by
  decide

/-- C4 amended: every error thrown during an attempt — bad-credential
authentication failures included — is retried up to `maxRetries` (default 3),
each retry forcing re-authentication (`forceNew = retryCount > 0`) and the
cached session being cleared exactly on 401/403 errors, with a backoff of
base delay (5000 ms) × attempt number awaited before every retry; exhausting
the attempts rethrows the last error. -/
theorem retry_all_errors_with_backoff (attempts : Nat → Except JsError Series)
    (e0 : JsError) (h0 : attempts 0 = .error e0) :
    defaultMaxRetries = 3 ∧
    (∀ v, attempts 1 = .ok v →
      fetchLoop attempts defaultMaxRetries
        = ⟨.ok v, [5000], [false, true], [isAuthStatus e0]⟩) ∧
    (∀ e1 e2, attempts 1 = .error e1 → attempts 2 = .error e2 →
      fetchLoop attempts defaultMaxRetries
        = ⟨.error e2, [5000, 10000], [false, true, true],
           [isAuthStatus e0, isAuthStatus e1, isAuthStatus e2]⟩) := by
  refine ⟨rfl, ?_, ?_⟩
  · intro v h1
    simp [fetchLoop, defaultMaxRetries, fetchLoopGo, h0, h1]
  · intro e1 e2 h1 h2
    simp [fetchLoop, defaultMaxRetries, fetchLoopGo, h0, h1, h2]

/-- Attempt trace of three straight failures (one transport-style, then two
session-expiry ones). -/
def threeErrorsAttempts : Nat → Except JsError Series :=
  fun i =>
    if i = 0 then .error { status := none, message := "socket hang up" }
    else .error { status := some 401, message := "Request failed with status code 401" }

/-- C4 amended witness: both retry shapes instantiated — success on the second
attempt after a bad-credential failure, and exhaustion after three failures
with delays 5000 and 10000 ms. -/
theorem retry_all_errors_with_backoff_witness :
    fetchLoop retryAttemptsExample defaultMaxRetries
      = ⟨.ok exampleSeries3, [5000], [false, true], [isAuthStatus badCredentialError]⟩ ∧
    fetchLoop threeErrorsAttempts defaultMaxRetries
      = ⟨.error { status := some 401, message := "Request failed with status code 401" },
         [5000, 10000], [false, true, true],
         [isAuthStatus { status := none, message := "socket hang up" },
          isAuthStatus { status := some 401, message := "Request failed with status code 401" },
          isAuthStatus { status := some 401, message := "Request failed with status code 401" }]⟩ :=
  ⟨(retry_all_errors_with_backoff retryAttemptsExample badCredentialError rfl).2.1
      exampleSeries3 rfl,
   (retry_all_errors_with_backoff threeErrorsAttempts
      { status := none, message := "socket hang up" } rfl).2.2
      { status := some 401, message := "Request failed with status code 401" }
      { status := some 401, message := "Request failed with status code 401" } rfl rfl⟩

/-- C5: `getLatestCGMData` never throws — once retries are exhausted, any
exception becomes a result with `success = false`, the error's human-readable
message, an empty entry list and the formatted elapsed time, leaving the
reader state untouched and the checkpoint unsaved. -/
theorem run_cycle_never_throws (st : ReaderState)
    (attempts : Nat → Except JsError Series) (maxRetries : Nat) (elapsedMs : Int)
    (e : JsError) (he : (fetchLoop attempts maxRetries).result = .error e) :
    getLatestCGMData st attempts maxRetries elapsedMs =
      ⟨{ success := false, error := some e.message, entries := [], count := none
       , latestReading := none, oldestReading := none
       , executionTime := fmtExecutionTime elapsedMs, checkpoint := none }
      , st, false⟩ := by
  rw [getLatestCGMData, he]
  rfl

/-- A transport failure (timeout), as thrown by the HTTP client. -/
def transportError : JsError := { status := none, message := "timeout of 30000ms exceeded" }

/-- C5 witness: the theorem applied to a run whose every attempt times out. -/
theorem run_cycle_never_throws_witness :
    getLatestCGMData { lastGuid := none, lastReadingTime := none }
        (fun _ => .error transportError) defaultMaxRetries 1234 =
      ⟨{ success := false, error := some transportError.message, entries := []
       , count := none, latestReading := none, oldestReading := none
       , executionTime := fmtExecutionTime 1234, checkpoint := none }
      , { lastGuid := none, lastReadingTime := none }, false⟩ :=
  run_cycle_never_throws { lastGuid := none, lastReadingTime := none }
    (fun _ => .error transportError) defaultMaxRetries 1234 transportError (by decide)

/-- C1 amended: in a cycle whose fetch succeeded, a checkpoint save occurs iff
at least one raw reading was retrieved, and the saved `lastGuid` /
`lastReadingTime` are the synthetic identifier and raw (uncorrected) timestamp
of the newest retrieved reading, whose timestamp dominates every retrieved
reading; a failed cycle saves nothing and keeps the state.  `lastReadingTime`
is monotonically non-decreasing over cycles whose fetched points all carry
timestamps at or after the previous value — which an incremental window
guarantees — but a forced full fetch may retrieve only older points and move
it backwards (see the counterexample). -/
theorem checkpoint_save_newest_monotone (st : ReaderState) (s : Series)
    (elapsedMs : Int) :
    ((runCycle st (.ok s) elapsedMs).checkpointSaved = true ↔ seriesPoints s ≠ []) ∧
    (∀ newest rest, fetchReadingsFromSeries s = newest :: rest →
      (runCycle st (.ok s) elapsedMs).state
          = { lastGuid := some newest.guid
            , lastReadingTime := some newest.timestampMs } ∧
      (∀ r ∈ fetchReadingsFromSeries s, r.timestampMs ≤ newest.timestampMs)) ∧
    (∀ e : JsError, (runCycle st (.error e) elapsedMs).checkpointSaved = false ∧
      (runCycle st (.error e) elapsedMs).state = st) ∧
    (∀ T, st.lastReadingTime = some T →
      (∀ p ∈ seriesPoints s, T ≤ p.timestampMs) →
      ∀ T2, (runCycle st (.ok s) elapsedMs).state.lastReadingTime = some T2 →
        T ≤ T2) := by
  have hsaved : (runCycle st (.ok s) elapsedMs).checkpointSaved
      = !(fetchSuccess st s).1.isEmpty := rfl
  have hstate : (runCycle st (.ok s) elapsedMs).state = (fetchSuccess st s).2 := rfl
  refine ⟨?_, ?_, ?_, ?_⟩
  · rw [hsaved, fetchSuccess_fst]
    rw [Bool.not_eq_eq_eq_not]
    simp only [Bool.not_true, List.isEmpty_eq_false, ne_eq]
    rw [not_iff_not]
    exact fetchReadings_eq_nil_iff s
  · intro newest rest h
    refine ⟨by rw [hstate, fetchSuccess_snd_cons st s newest rest h], ?_⟩
    intro r hr
    rw [fetchReadingsFromSeries, mem_sortDescBy] at hr
    have h2 := h
    rw [fetchReadingsFromSeries] at h2
    exact sortDescBy_head_ge (fun r => r.timestampMs) _ newest rest h2 r hr
  · intro e
    exact ⟨rfl, rfl⟩
  · intro T hT hall T2 hT2
    rw [hstate] at hT2
    rcases h : fetchReadingsFromSeries s with - | ⟨newest, rest⟩
    · rw [fetchSuccess_snd_nil st s h, hT] at hT2
      rw [Option.some_inj.mp hT2]
    · rw [fetchSuccess_snd_cons st s newest rest h] at hT2
      have hmem : newest ∈ fetchReadingsFromSeries s := by rw [h]; exact List.mem_cons_self _ _
      rw [fetchReadingsFromSeries, mem_sortDescBy] at hmem
      obtain ⟨p, hp, hpc⟩ := List.mem_map.mp hmem
      have hts : newest.timestampMs = p.timestampMs := by rw [← hpc]; rfl
      rw [← Option.some_inj.mp hT2, hts]
      exact hall p hp

/-- Series containing a single reading older than the stored checkpoint. -/
def oldPointSeries : Series :=
  { cgmHigh := [], cgmNormal := [samplePoint 50000 5], cgmLow := [] }

/-- State holding a checkpoint newer than everything in `oldPointSeries`. -/
def newerState : ReaderState :=
  { lastGuid := some "glooko_100_5", lastReadingTime := some 100000 }

/-- C1 counterexample: a successful cycle (as a forced full fetch can produce)
that retrieves one reading older than the stored checkpoint saves a strictly
smaller `lastReadingTime` — 100000 drops to 50000 — so `lastReadingTime` is
not monotonically non-decreasing across successful cycles. -/
theorem checkpoint_monotonicity_counterexample :
    (runCycle newerState (.ok oldPointSeries) 0).checkpointSaved = true ∧
    newerState.lastReadingTime = some 100000 ∧
    (runCycle newerState (.ok oldPointSeries) 0).state.lastReadingTime
      = some 50000 ∧
    (50000 : Int) < 100000 := by
  decide

/-- C1 amended witness: the newest-reading conjunct applied to the concrete
three-band example. -/
theorem checkpoint_save_newest_monotone_witness :
    (runCycle { lastGuid := none, lastReadingTime := none }
        (.ok exampleSeries3) 0).state
      = { lastGuid := some (convertPoint (samplePoint 600000 (121/10))).guid
        , lastReadingTime := some (convertPoint (samplePoint 600000 (121/10))).timestampMs } :=
  ((checkpoint_save_newest_monotone { lastGuid := none, lastReadingTime := none }
      exampleSeries3 0).2.1
    (convertPoint (samplePoint 600000 (121/10)))
    [convertPoint (samplePoint 300000 (41/5)), convertPoint (samplePoint 0 5)]
    (by decide)).1

end Glooko
